import Mathlib

/-!
Shallow embedding of the AWS Connect agent-status Terraform resource of
this repository.  Two variants exist in the source: a legacy SDK handler
(`resourceAgentStatusCreate`/`Read`/`Update`, `AgentStatusParseID`) and a
plugin-framework handler (`AgentStatusResource` with the
`import_on_exists` adoption scan and the `display_order` attribute).
Remote service behavior (AWS Connect) is modelled as explicit oracle
values describing what each remote call returns; each lifecycle method
becomes a pure function from its inputs and the oracle to an outcome
record listing the calls issued, the diagnostics added and the state
written back.
-/

namespace AgentStatusExt

/-- Go helper `aws.ToString`: dereference an optional string pointer,
yielding the empty string for nil. -/
def awsToString : Option String → String
  | none => ""
  | some s => s

/-- Split a character list at the first colon, as
`strings.SplitN(id, ":", 2)` does: `none` when no colon occurs (one part),
otherwise the part before the first colon and everything after it. -/
def splitFirstColon : List Char → Option (List Char × List Char)
  | [] => none
  | c :: cs =>
    if c = ':' then some ([], cs)
    else
      match splitFirstColon cs with
      | none => none
      | some p => some (c :: p.1, p.2)

/-- `AgentStatusParseID` from the legacy SDK variant: SplitN on the first
colon into at most two parts; fail unless there are exactly two parts and
both are non-empty. -/
def AgentStatusParseID (id : String) : Except String (String × String) :=
  match splitFirstColon id.data with
  | none =>
      .error ("unexpected format of ID (" ++ id ++ "), expected instanceID:agentStatusID")
  | some p =>
      if p.1 = [] ∨ p.2 = [] then
        .error ("unexpected format of ID (" ++ id ++ "), expected instanceID:agentStatusID")
      else
        .ok (⟨p.1⟩, ⟨p.2⟩)

/-- Composite identifier encoding used by the legacy Create
(`fmt.Sprintf` of instance id, a colon, and the agent status id). -/
def agentStatusEncodeID (instanceID agentStatusID : String) : String :=
  instanceID ++ ":" ++ agentStatusID

/-- Equality test for `Except` values with decidable components, used so
concrete oracle outcomes can be checked by `decide`. -/
def exceptDecEq {ε α : Type} [DecidableEq ε] [DecidableEq α] :
    DecidableEq (Except ε α) := fun x y =>
  match x, y with
  | .error e, .error f =>
    if h : e = f then .isTrue (h ▸ rfl) else .isFalse (fun hc => h (Except.error.inj hc))
  | .ok a, .ok b =>
    if h : a = b then .isTrue (h ▸ rfl) else .isFalse (fun hc => h (Except.ok.inj hc))
  | .error _, .ok _ => .isFalse (fun hc => Except.noConfusion hc)
  | .ok _, .error _ => .isFalse (fun hc => Except.noConfusion hc)

instance {ε α : Type} [DecidableEq ε] [DecidableEq α] : DecidableEq (Except ε α) :=
  exceptDecEq

/-- Ternary truth value of a Terraform framework Bool attribute. -/
inductive TFBool where
  | null
  | unknown
  | val (b : Bool)
deriving DecidableEq, Repr

/-- Framework `types.Bool.IsNull`. -/
def TFBool.isNull : TFBool → Bool
  | .null => true
  | _ => false

/-- Framework `types.Bool.IsUnknown`. -/
def TFBool.isUnknown : TFBool → Bool
  | .unknown => true
  | _ => false

/-- Framework `types.Bool.ValueBool`: the value, or false when null or
unknown. -/
def TFBool.valueBool : TFBool → Bool
  | .val b => b
  | _ => false

/-- The guard of the adoption scan in the framework Create:
`importOnExists.IsNull() || importOnExists.IsUnknown() ||
importOnExists.ValueBool()`. -/
def shouldScanOnCreate (importOnExists : TFBool) : Bool :=
  importOnExists.isNull || importOnExists.isUnknown || importOnExists.valueBool

/-- Plan data of the framework variant resource
(`AgentStatusResourceModel`); string attributes are carried as their
`ValueString` views and `display_order` as its `ValueInt32Pointer` view. -/
structure AgentStatusResourceModel where
  arn : String
  description : String
  agentStatusID : String
  instanceID : String
  name : String
  state : String
  displayOrder : Option Int
deriving DecidableEq, Repr

/-- Identity payload of the framework variant
(`AgentStatusResourceIdentityModel`). -/
structure AgentStatusResourceIdentityModel where
  arn : String
  agentStatusID : String
deriving DecidableEq, Repr

/-- The `connect.CreateAgentStatusInput` payload as the provider fills it
(fields it never sets, such as tags in the framework variant, are not
modelled). -/
structure CreateAgentStatusInput where
  instanceId : String
  name : String
  state : String
  description : String
  displayOrder : Option Int
deriving DecidableEq, Repr

/-- The `connect.UpdateAgentStatusInput` payload as the provider fills it. -/
structure UpdateAgentStatusInput where
  agentStatusId : String
  instanceId : String
  name : String
  state : String
  description : String
  displayOrder : Option Int
deriving DecidableEq, Repr

/-- `connect.CreateAgentStatusOutput`: the remote-assigned identifier and
ARN, as optional string pointers. -/
structure CreateAgentStatusOutput where
  agentStatusId : Option String
  agentStatusARN : Option String
deriving DecidableEq, Repr

/-- `CreateAgentStatusInput` construction in the framework Create:
DisplayOrder is attached only when the planned state equals ENABLED. -/
def buildCreateInput (data : AgentStatusResourceModel) : CreateAgentStatusInput :=
  { instanceId := data.instanceID
    name := data.name
    state := data.state
    description := data.description
    displayOrder := if data.state = "ENABLED" then data.displayOrder else none }

/-- `UpdateAgentStatusInput` construction in `updateAgentStatus` of the
framework variant: DisplayOrder is attached only when the planned state
equals ENABLED. -/
def buildUpdateInput (data : AgentStatusResourceModel) : UpdateAgentStatusInput :=
  { agentStatusId := data.agentStatusID
    instanceId := data.instanceID
    name := data.name
    state := data.state
    description := data.description
    displayOrder := if data.state = "ENABLED" then data.displayOrder else none }

/-- Diagnostics the handlers add through `resp.Diagnostics.AddError` or
`sdkdiag`, tagged by the call site that produced them. -/
inductive Diag where
  | listError (msg : String)
  | createError (msg : String)
  | updateError (msg : String)
  | readError (msg : String)
  | parseIDError (id : String)
deriving DecidableEq, Repr

/-- One `AgentStatusSummary` entry of a `ListAgentStatuses` page; the AWS
SDK fields are optional string pointers. -/
structure AgentStatusSummary where
  id : Option String
  arn : Option String
  name : Option String
deriving DecidableEq, Repr

/-- What the remote service returns for one `ListAgentStatuses` call:
either an error or a page of summaries.  A list of these models the
sequence of pages the cursor walk visits in order; the continuation token
is exhausted exactly when the list is. -/
inductive ListCall where
  | failure (msg : String)
  | page (summaries : List AgentStatusSummary)
deriving DecidableEq, Repr

/-- Result of the pagination loop of the framework Create. -/
inductive ScanResult where
  | found (id arn : String)
  | listFailed (msg : String)
  | exhausted
deriving DecidableEq, Repr

/-- The pagination loop of the framework Create: pages are visited in
order; a list error breaks out of the loop; within a page the first
summary whose (pointer-dereferenced) name equals the desired name exactly
and case-sensitively is adopted. -/
def scanForName (name : String) : List ListCall → ScanResult
  | [] => .exhausted
  | .failure msg :: _ => .listFailed msg
  | .page summaries :: rest =>
    match summaries.find? (fun s => awsToString s.name == name) with
    | some s => .found (awsToString s.id) (awsToString s.arn)
    | none => scanForName name rest

/-- Remote behavior visible to one framework Create invocation: the pages
its list loop would receive, and the results of its CreateAgentStatus and
UpdateAgentStatus calls, were they issued. -/
structure CreateRemote where
  listCalls : List ListCall
  createResult : Except String CreateAgentStatusOutput
  updateResult : Except String Unit

/-- Observable outcome of one framework Create invocation. -/
structure CreateOutcome where
  listCalled : Bool
  createCalled : Bool
  createInputSent : Option CreateAgentStatusInput
  updateInputSent : Option UpdateAgentStatusInput
  savedState : Option AgentStatusResourceModel
  savedIdentity : Option AgentStatusResourceIdentityModel
  errors : List Diag
deriving DecidableEq, Repr

/-- Fall-through tail of the framework Create: issue CreateAgentStatus,
surface a failure and return, otherwise record the remote-assigned
identifier and ARN and save state and identity. -/
def createViaAPI (data : AgentStatusResourceModel) (listCalled : Bool)
    (pending : List Diag) (input : CreateAgentStatusInput)
    (createResult : Except String CreateAgentStatusOutput) : CreateOutcome :=
  match createResult with
  | .error e =>
    { listCalled := listCalled
      createCalled := true
      createInputSent := some input
      updateInputSent := none
      savedState := none
      savedIdentity := none
      errors := pending ++ [.createError e] }
  | .ok out =>
    let newData := { data with
      agentStatusID := awsToString out.agentStatusId
      arn := awsToString out.agentStatusARN }
    { listCalled := listCalled
      createCalled := true
      createInputSent := some input
      updateInputSent := none
      savedState := some newData
      savedIdentity := some { arn := newData.arn, agentStatusID := newData.agentStatusID }
      errors := pending }

/-- The framework variant Create, as a function of the plan data, the
write-only `import_on_exists` config value and the remote oracle.  When
the guard allows it, the adoption scan runs first: on a name match the
matched identifier and ARN are adopted, `updateAgentStatus` is called with
the desired spec (a failure only adds a diagnostic), state and identity
are saved and the handler returns; a list error adds a diagnostic and
breaks out to the create path; an exhausted cursor falls through to the
create path. -/
def frameworkCreate (data : AgentStatusResourceModel) (importOnExists : TFBool)
    (remote : CreateRemote) : CreateOutcome :=
  let input := buildCreateInput data
  if shouldScanOnCreate importOnExists then
    match scanForName data.name remote.listCalls with
    | .found id arn =>
      let adopted := { data with agentStatusID := id, arn := arn }
      let updErrs : List Diag :=
        match remote.updateResult with
        | .error e => [.updateError e]
        | .ok _ => []
      { listCalled := true
        createCalled := false
        createInputSent := none
        updateInputSent := some (buildUpdateInput adopted)
        savedState := some adopted
        savedIdentity := some { arn := adopted.arn, agentStatusID := adopted.agentStatusID }
        errors := updErrs }
    | .listFailed msg => createViaAPI data true [.listError msg] input remote.createResult
    | .exhausted => createViaAPI data true [] input remote.createResult
  else
    createViaAPI data false [] input remote.createResult

/-- The agent status payload of a Describe response
(`awstypes.AgentStatus`). -/
structure AgentStatusData where
  agentStatusId : Option String
  agentStatusARN : Option String
  description : Option String
  name : Option String
  state : String
  displayOrder : Option Int
  typ : Option String
deriving DecidableEq, Repr

/-- Result of one `DescribeAgentStatus` call: an error together with its
`tfresource.NotFound` classification, or a success payload in which the
response pointer or its `AgentStatus` field may be nil. -/
inductive DescribeResult where
  | err (notFound : Bool) (msg : String)
  | ok (resp : Option (Option AgentStatusData))
deriving DecidableEq, Repr

/-- Attribute values the legacy Read writes back with `d.Set`. -/
structure LegacyAgentStatusRecord where
  arn : String
  agentStatusID : String
  instanceID : String
  description : String
  name : String
  state : String
  typ : String
deriving DecidableEq, Repr

/-- Observable outcome of one legacy Read invocation. -/
structure LegacyReadOutcome where
  removed : Bool
  errors : List Diag
  refreshed : Option LegacyAgentStatusRecord
deriving DecidableEq, Repr

/-- The legacy SDK Read: parse the composite id, Describe, drop the record
when the entity is gone and the record is not freshly created, otherwise
error on failures and on empty payloads, otherwise refresh every attribute
from the response. -/
def resourceAgentStatusRead (id : String) (isNewResource : Bool)
    (describe : DescribeResult) : LegacyReadOutcome :=
  match AgentStatusParseID id with
  | .error _ => { removed := false, errors := [.parseIDError id], refreshed := none }
  | .ok (instanceID, _) =>
    match describe with
    | .err notFound msg =>
      if !isNewResource && notFound then
        { removed := true, errors := [], refreshed := none }
      else
        { removed := false, errors := [.readError msg], refreshed := none }
    | .ok none =>
      { removed := false, errors := [.readError "empty response"], refreshed := none }
    | .ok (some none) =>
      { removed := false, errors := [.readError "empty response"], refreshed := none }
    | .ok (some (some st)) =>
      { removed := false
        errors := []
        refreshed := some
          { arn := awsToString st.agentStatusARN
            agentStatusID := awsToString st.agentStatusId
            instanceID := instanceID
            description := awsToString st.description
            name := awsToString st.name
            state := st.state
            typ := awsToString st.typ } }

/-- Observable outcome of one framework Read invocation. -/
structure FrameworkReadOutcome where
  removed : Bool
  errors : List Diag
  savedState : Option AgentStatusResourceModel
deriving DecidableEq, Repr

/-- The framework variant Read: any Describe error is surfaced as a
diagnostic; a nil response or a nil `AgentStatus` payload removes the
record from state and is not an error; otherwise attributes are refreshed
from the response, `display_order` only when the remote state is ENABLED
and the field is present. -/
def frameworkRead (data : AgentStatusResourceModel)
    (describe : DescribeResult) : FrameworkReadOutcome :=
  match describe with
  | .err _ msg => { removed := false, errors := [.readError msg], savedState := none }
  | .ok none => { removed := true, errors := [], savedState := none }
  | .ok (some none) => { removed := true, errors := [], savedState := none }
  | .ok (some (some st)) =>
    let refreshed := { data with
      agentStatusID := awsToString st.agentStatusId
      arn := awsToString st.agentStatusARN
      description := awsToString st.description
      name := awsToString st.name
      state := st.state
      displayOrder :=
        if (st.state == "ENABLED") && st.displayOrder.isSome then st.displayOrder
        else data.displayOrder }
    { removed := false, errors := [], savedState := some refreshed }

/-- Observable outcome of one legacy Create invocation (up to the trailing
in-process Read refresh, which is modelled separately). -/
structure LegacyCreateOutcome where
  errors : List Diag
  assignedID : Option String
deriving DecidableEq, Repr

/-- The legacy SDK Create: error on a failed CreateAgentStatus call, error
on a nil success payload, otherwise persist the composite identifier. -/
def resourceAgentStatusCreate (instanceID name : String)
    (createResult : Except String (Option CreateAgentStatusOutput)) :
    LegacyCreateOutcome :=
  match createResult with
  | .error e =>
    { errors := [.createError ("error creating Connect Agent Status (" ++ name ++ "): " ++ e)]
      assignedID := none }
  | .ok none =>
    { errors := [.createError ("error creating Connect Agent Status (" ++ name ++ "): empty output")]
      assignedID := none }
  | .ok (some output) =>
    { errors := []
      assignedID := some (agentStatusEncodeID instanceID (awsToString output.agentStatusId)) }

/-- The name, description and state attribute triple the legacy Update
diffs with `d.HasChanges`. -/
structure LegacyDesiredSpec where
  name : String
  description : String
  state : String
deriving DecidableEq, Repr

/-- Observable outcome of one legacy Update invocation (up to the trailing
in-process Read refresh). -/
structure LegacyUpdateOutcome where
  updateCalled : Bool
  updateInputSent : Option UpdateAgentStatusInput
  errors : List Diag
deriving DecidableEq, Repr

/-- The legacy SDK Update: parse the composite id, then call
UpdateAgentStatus only when name, description or state changed between the
prior record and the plan. -/
def resourceAgentStatusUpdate (id : String) (old new : LegacyDesiredSpec)
    (updateResult : Except String Unit) : LegacyUpdateOutcome :=
  match AgentStatusParseID id with
  | .error _ =>
    { updateCalled := false, updateInputSent := none, errors := [.parseIDError id] }
  | .ok (instanceID, agentStatusID) =>
    if old.name != new.name || old.description != new.description
        || old.state != new.state then
      let input : UpdateAgentStatusInput :=
        { agentStatusId := agentStatusID
          instanceId := instanceID
          name := new.name
          state := new.state
          description := new.description
          displayOrder := none }
      match updateResult with
      | .error e =>
        { updateCalled := true, updateInputSent := some input, errors := [.updateError e] }
      | .ok _ =>
        { updateCalled := true, updateInputSent := some input, errors := [] }
    else
      { updateCalled := false, updateInputSent := none, errors := [] }

/-- Observable outcome of one framework Update invocation. -/
structure FrameworkUpdateOutcome where
  updateCalled : Bool
  updateInputSent : Option UpdateAgentStatusInput
  savedState : Option AgentStatusResourceModel
  errors : List Diag
deriving DecidableEq, Repr

/-- The framework variant Update: it calls `updateAgentStatus` with the
plan data unconditionally; on failure the error is surfaced and state is
not saved, otherwise the plan data is saved. -/
def frameworkUpdate (data : AgentStatusResourceModel)
    (updateResult : Except String Unit) : FrameworkUpdateOutcome :=
  let input := buildUpdateInput data
  match updateResult with
  | .error e =>
    { updateCalled := true, updateInputSent := some input, savedState := none
      errors := [.updateError e] }
  | .ok _ =>
    { updateCalled := true, updateInputSent := some input, savedState := some data
      errors := [] }

/-- Observable outcome of one Delete invocation. -/
structure DeleteOutcome where
  remoteCalled : Bool
  errors : List Diag
deriving DecidableEq, Repr

/-- The legacy SDK Delete: `schema.NoopContext`, an empty diagnostics
result with no remote call. -/
def resourceAgentStatusDelete : DeleteOutcome :=
  { remoteCalled := false, errors := [] }

/-- The framework variant Delete: it reads the prior state and returns;
every remote interaction in its body is commented out in the source. -/
def frameworkDelete (_data : AgentStatusResourceModel) : DeleteOutcome :=
  { remoteCalled := false, errors := [] }

/-- Concrete plan data used by the witnesses. -/
def sampleData : AgentStatusResourceModel :=
  { arn := "arn-old"
    description := "desc"
    agentStatusID := ""
    instanceID := "inst-1"
    name := "Busy"
    state := "ENABLED"
    displayOrder := some 2 }

/-- Concrete remote oracle in which the first list page holds an entry
named like the sample plan. -/
def sampleRemoteFound : CreateRemote :=
  { listCalls := [ListCall.page [{ id := some "as-1", arn := some "arn-1", name := some "Busy" }]]
    createResult := Except.error "unreached"
    updateResult := Except.ok () }

/-- Concrete remote oracle like `sampleRemoteFound` but whose update call
fails. -/
def sampleRemoteFoundUpdErr : CreateRemote :=
  { listCalls := [ListCall.page [{ id := some "as-1", arn := some "arn-1", name := some "Busy" }]]
    createResult := Except.error "unreached"
    updateResult := Except.error "upd boom" }

/-- Concrete remote oracle whose first list call fails and whose create
call succeeds. -/
def sampleRemoteListErr : CreateRemote :=
  { listCalls := [ListCall.failure "boom"]
    createResult := Except.ok { agentStatusId := some "new-id", agentStatusARN := some "new-arn" }
    updateResult := Except.ok () }

/-- Concrete prior attribute triple used by the update witnesses. -/
def sampleSpecA : LegacyDesiredSpec :=
  { name := "Busy", description := "d1", state := "ENABLED" }

/-- Concrete planned attribute triple used by the update witnesses. -/
def sampleSpecB : LegacyDesiredSpec :=
  { name := "Busy", description := "d2", state := "ENABLED" }

end AgentStatusExt

namespace AgentStatusExt

theorem splitFirstColon_append (l r : List Char) (h : ':' ∉ l) :
    splitFirstColon (l ++ ':' :: r) = some (l, r) := by
  induction l with
  | nil => simp [splitFirstColon]
  | cons c cs ih =>
    have hc : ¬ c = ':' := fun hc => h (by simp [hc])
    have hcs : ':' ∉ cs := fun hm => h (List.mem_cons_of_mem _ hm)
    simp [splitFirstColon, hc, ih hcs]

theorem splitFirstColon_eq_some (cs : List Char) :
    ∀ l r, splitFirstColon cs = some (l, r) → cs = l ++ ':' :: r ∧ ':' ∉ l := by
  induction cs with
  | nil => intro l r h; simp [splitFirstColon] at h
  | cons c cs ih =>
    intro l r h
    by_cases hc : c = ':'
    · subst hc
      rw [splitFirstColon, if_pos rfl] at h
      obtain ⟨rfl, rfl⟩ := Prod.mk.injEq .. ▸ Option.some.inj h
      exact ⟨rfl, by simp⟩
    · rw [splitFirstColon, if_neg hc] at h
      cases hsp : splitFirstColon cs with
      | none => rw [hsp] at h; cases h
      | some p =>
        rw [hsp] at h
        obtain ⟨rfl, rfl⟩ := Prod.mk.injEq .. ▸ Option.some.inj h
        obtain ⟨hcs, hnotin⟩ := ih p.1 p.2 hsp
        refine ⟨by rw [List.cons_append, ← hcs], ?_⟩
        intro hmem
        rcases List.mem_cons.mp hmem with hh | hh
        · exact hc hh.symm
        · exact hnotin hh

/-- C4: decoding the encoded composite identifier
`instance_id ++ ":" ++ agent_status_id` returns exactly the original pair
whenever neither part is empty and neither part contains a colon. -/
theorem agentStatusParseID_encode_roundtrip (i a : String)
    (hi : i ≠ "") (ha : a ≠ "") (hci : ':' ∉ i.data) (_hca : ':' ∉ a.data) :
    AgentStatusParseID (agentStatusEncodeID i a) = .ok (i, a) := by
  have hdata : (agentStatusEncodeID i a).data = i.data ++ ':' :: a.data := by
    simp [agentStatusEncodeID]
  have hine : i.data ≠ [] := fun h => hi (congrArg String.mk h)
  have hane : a.data ≠ [] := fun h => ha (congrArg String.mk h)
  rw [AgentStatusParseID, hdata, splitFirstColon_append _ _ hci]
  simp [hine, hane]

/-- C4 witness: the round trip evaluated at a concrete pair. -/
theorem agentStatusParseID_encode_roundtrip_witness :
    AgentStatusParseID (agentStatusEncodeID "inst" "status") = .ok ("inst", "status") :=
  agentStatusParseID_encode_roundtrip "inst" "status"
    (by decide) (by decide) (by decide) (by decide)

/-- C5: decoding succeeds only on inputs that split on the first colon into
exactly two non-empty parts (so every other input fails), and in particular
decoding fails on "abc" (no colon), ":abc" (empty first part) and "abc:"
(empty second part). -/
theorem agentStatusParseID_malformed :
    (∀ id i a, AgentStatusParseID id = .ok (i, a) →
       i ≠ "" ∧ a ≠ "" ∧ id = i ++ ":" ++ a ∧ ':' ∉ i.data)
    ∧ (AgentStatusParseID "abc").isOk = false
    ∧ (AgentStatusParseID ":abc").isOk = false
    ∧ (AgentStatusParseID "abc:").isOk = false := by
  refine ⟨?_, by decide, by decide, by decide⟩
  intro id i a h
  rw [AgentStatusParseID] at h
  cases hsp : splitFirstColon id.data with
  | none => rw [hsp] at h; cases h
  | some p =>
    rw [hsp] at h
    simp only at h
    by_cases hemp : p.1 = [] ∨ p.2 = []
    · rw [if_pos hemp] at h; cases h
    · rw [if_neg hemp] at h
      push_neg at hemp
      obtain ⟨h1, h2⟩ := Prod.mk.injEq .. ▸ Except.ok.inj h
      obtain ⟨hcs, hnotin⟩ := splitFirstColon_eq_some id.data p.1 p.2 hsp
      refine ⟨?_, ?_, ?_, ?_⟩
      · rw [← h1]; intro hcon
        exact hemp.1 (by simpa using congrArg String.data hcon)
      · rw [← h2]; intro hcon
        exact hemp.2 (by simpa using congrArg String.data hcon)
      · rw [← h1, ← h2]
        have hd : ((⟨p.1⟩ : String) ++ ":" ++ (⟨p.2⟩ : String)).data = p.1 ++ ':' :: p.2 := by
          simp
        have hid : id = String.mk (p.1 ++ ':' :: p.2) := congrArg String.mk hcs
        rw [hid, ← hd]
      · rw [← h1]; simpa using hnotin

/-- C5 witness: the soundness direction applied to a concrete well-formed
identifier. -/
theorem agentStatusParseID_malformed_witness :
    ("a" : String) ≠ "" ∧ ("b" : String) ≠ ""
    ∧ ("a:b" : String) = "a" ++ ":" ++ "b" ∧ ':' ∉ ("a" : String).data :=
  agentStatusParseID_malformed.1 "a:b" "a" "b" (by rfl)

end AgentStatusExt

namespace AgentStatusExt

theorem shouldScanOnCreate_eq_true (flag : TFBool) :
    shouldScanOnCreate flag = true ↔
      (flag = TFBool.null ∨ flag = TFBool.unknown ∨ flag = TFBool.val true) := by
  cases flag with
  | null => simp [shouldScanOnCreate, TFBool.isNull, TFBool.isUnknown, TFBool.valueBool]
  | unknown => simp [shouldScanOnCreate, TFBool.isNull, TFBool.isUnknown, TFBool.valueBool]
  | val b =>
    cases b <;>
      simp [shouldScanOnCreate, TFBool.isNull, TFBool.isUnknown, TFBool.valueBool]

theorem shouldScanOnCreate_eq_false (flag : TFBool) :
    shouldScanOnCreate flag = false ↔ flag = TFBool.val false := by
  cases flag with
  | null => simp [shouldScanOnCreate, TFBool.isNull, TFBool.isUnknown, TFBool.valueBool]
  | unknown => simp [shouldScanOnCreate, TFBool.isNull, TFBool.isUnknown, TFBool.valueBool]
  | val b =>
    cases b <;>
      simp [shouldScanOnCreate, TFBool.isNull, TFBool.isUnknown, TFBool.valueBool]

theorem createViaAPI_fields (data : AgentStatusResourceModel) (lc : Bool)
    (pending : List Diag) (input : CreateAgentStatusInput)
    (res : Except String CreateAgentStatusOutput) :
    (createViaAPI data lc pending input res).listCalled = lc
    ∧ (createViaAPI data lc pending input res).createCalled = true
    ∧ (createViaAPI data lc pending input res).createInputSent = some input := by
  cases res <;> simp [createViaAPI]

theorem frameworkCreate_listCalled (data : AgentStatusResourceModel) (flag : TFBool)
    (remote : CreateRemote) :
    (frameworkCreate data flag remote).listCalled = shouldScanOnCreate flag := by
  cases hs : shouldScanOnCreate flag with
  | false =>
    simp [frameworkCreate, hs, (createViaAPI_fields ..).1]
  | true =>
    cases hscan : scanForName data.name remote.listCalls with
    | found id arn => simp [frameworkCreate, hs, hscan]
    | listFailed msg => simp [frameworkCreate, hs, hscan, (createViaAPI_fields ..).1]
    | exhausted => simp [frameworkCreate, hs, hscan, (createViaAPI_fields ..).1]

/-- C1: in the framework Create, the adoption scan runs exactly when
`import_on_exists` is null, unknown or true; with the flag false no list
call is made and a fresh CreateAgentStatus call is issued; and when the
scan finds a name match, the matched identifier and ARN are adopted into
the saved record, UpdateAgentStatus is invoked with the desired spec, and
CreateAgentStatus is never called. -/
theorem frameworkCreate_import_on_exists_spec
    (data : AgentStatusResourceModel) (flag : TFBool) (remote : CreateRemote) :
    ((frameworkCreate data flag remote).listCalled = true ↔
       (flag = TFBool.null ∨ flag = TFBool.unknown ∨ flag = TFBool.val true))
    ∧ (flag = TFBool.val false →
        (frameworkCreate data flag remote).listCalled = false
        ∧ (frameworkCreate data flag remote).createCalled = true
        ∧ (frameworkCreate data flag remote).createInputSent = some (buildCreateInput data))
    ∧ (∀ id arn, scanForName data.name remote.listCalls = ScanResult.found id arn →
        flag ≠ TFBool.val false →
        (frameworkCreate data flag remote).createCalled = false
        ∧ (frameworkCreate data flag remote).savedState =
            some { data with agentStatusID := id, arn := arn }
        ∧ (frameworkCreate data flag remote).updateInputSent =
            some (buildUpdateInput { data with agentStatusID := id, arn := arn })) := by
  refine ⟨?_, ?_, ?_⟩
  · rw [frameworkCreate_listCalled]
    exact shouldScanOnCreate_eq_true flag
  · intro hf
    subst hf
    have hs : shouldScanOnCreate (TFBool.val false) = false := by decide
    have hfc : frameworkCreate data (TFBool.val false) remote =
        createViaAPI data false [] (buildCreateInput data) remote.createResult := by
      simp [frameworkCreate, hs]
    have h1 := frameworkCreate_listCalled data (TFBool.val false) remote
    rw [hs] at h1
    exact ⟨h1, by rw [hfc]; exact (createViaAPI_fields ..).2.1,
      by rw [hfc]; exact (createViaAPI_fields ..).2.2⟩
  · intro id arn hscan hne
    have hs : shouldScanOnCreate flag = true := by
      cases h : shouldScanOnCreate flag
      · exact absurd ((shouldScanOnCreate_eq_false flag).1 h) hne
      · rfl
    simp [frameworkCreate, hs, hscan]

/-- C1 witness: with the flag false no list call happens and create is
issued; with the flag null the pre-existing entry is adopted and updated. -/
theorem frameworkCreate_import_on_exists_spec_witness :
    ((frameworkCreate sampleData (TFBool.val false) sampleRemoteFound).listCalled = false
      ∧ (frameworkCreate sampleData (TFBool.val false) sampleRemoteFound).createCalled = true
      ∧ (frameworkCreate sampleData (TFBool.val false) sampleRemoteFound).createInputSent =
          some (buildCreateInput sampleData))
    ∧ ((frameworkCreate sampleData TFBool.null sampleRemoteFound).createCalled = false
      ∧ (frameworkCreate sampleData TFBool.null sampleRemoteFound).savedState =
          some { sampleData with agentStatusID := "as-1", arn := "arn-1" }
      ∧ (frameworkCreate sampleData TFBool.null sampleRemoteFound).updateInputSent =
          some (buildUpdateInput { sampleData with agentStatusID := "as-1", arn := "arn-1" })) :=
  ⟨(frameworkCreate_import_on_exists_spec sampleData (TFBool.val false) sampleRemoteFound).2.1 rfl,
   (frameworkCreate_import_on_exists_spec sampleData TFBool.null sampleRemoteFound).2.2
     "as-1" "arn-1" (by decide) (by decide)⟩

/-- C2: the legacy Read drops the record without error exactly on a
not-found Describe error with the record not freshly created, and errors
on every other Describe failure; the framework Read errors on every
Describe error and drops the record without error when the Describe
success payload signals the entity is gone (nil AgentStatus). -/
theorem read_not_found_drops_record
    (id instID statusID : String) (isNewResource notFound : Bool) (msg : String)
    (data : AgentStatusResourceModel)
    (hid : AgentStatusParseID id = Except.ok (instID, statusID)) :
    ((notFound = true ∧ isNewResource = false) →
       resourceAgentStatusRead id isNewResource (DescribeResult.err notFound msg) =
         { removed := true, errors := [], refreshed := none })
    ∧ ((notFound = false ∨ isNewResource = true) →
       (resourceAgentStatusRead id isNewResource (DescribeResult.err notFound msg)).removed = false
       ∧ (resourceAgentStatusRead id isNewResource (DescribeResult.err notFound msg)).errors =
           [Diag.readError msg])
    ∧ ((frameworkRead data (DescribeResult.err notFound msg)).removed = false
       ∧ (frameworkRead data (DescribeResult.err notFound msg)).errors = [Diag.readError msg])
    ∧ (frameworkRead data (DescribeResult.ok (some none)) =
       { removed := true, errors := [], savedState := none }) := by
  refine ⟨?_, ?_, ⟨rfl, rfl⟩, rfl⟩
  · rintro ⟨hn, hi⟩
    subst hn; subst hi
    simp [resourceAgentStatusRead, hid]
  · rintro (hn | hi)
    · subst hn; simp [resourceAgentStatusRead, hid]
    · subst hi; simp [resourceAgentStatusRead, hid]

/-- C2 witness: a not-found Describe error on a non-fresh record removes
the record with no diagnostics. -/
theorem read_not_found_drops_record_witness :
    resourceAgentStatusRead "i:a" false (DescribeResult.err true "gone") =
      { removed := true, errors := [], refreshed := none } :=
  (read_not_found_drops_record "i:a" "i" "a" false true "gone" sampleData (by rfl)).1
    ⟨rfl, rfl⟩

/-- C3: both the framework Create payload and the framework update payload
carry the planned display order exactly when the planned state is ENABLED,
and omit it when the planned state is DISABLED. -/
theorem payload_display_order_iff_enabled
    (data : AgentStatusResourceModel) (d : Int)
    (hdo : data.displayOrder = some d) :
    (data.state = "ENABLED" →
       (buildCreateInput data).displayOrder = some d
       ∧ (buildUpdateInput data).displayOrder = some d)
    ∧ (data.state = "DISABLED" →
       (buildCreateInput data).displayOrder = none
       ∧ (buildUpdateInput data).displayOrder = none) := by
  constructor
  · intro hs
    simp [buildCreateInput, buildUpdateInput, hs, hdo]
  · intro hs
    have hne : ("DISABLED" : String) ≠ "ENABLED" := by decide
    simp [buildCreateInput, buildUpdateInput, hs, hne]

/-- C3 witness: the sample ENABLED plan carries its display order in both
payloads. -/
theorem payload_display_order_iff_enabled_witness :
    (buildCreateInput sampleData).displayOrder = some 2
    ∧ (buildUpdateInput sampleData).displayOrder = some 2 :=
  (payload_display_order_iff_enabled sampleData 2 rfl).1 rfl

/-- C6 counterexample: the framework Read, given a successful Describe
with a nil response, removes the record from state and reports no error,
contradicting the claim that every empty success payload is treated as an
error. -/
theorem frameworkRead_empty_response_drops_cex :
    (frameworkRead ⟨"", "", "a", "i", "n", "ENABLED", some 1⟩
      (DescribeResult.ok none)).errors = []
    ∧ (frameworkRead ⟨"", "", "a", "i", "n", "ENABLED", some 1⟩
      (DescribeResult.ok none)).removed = true :=
  ⟨rfl, rfl⟩

/-- C6 as amended: the legacy Create and the legacy Read report an error
on an empty or nil success payload, while the framework Read instead
silently removes the record from state on such a payload. -/
theorem empty_response_handling_amended
    (instanceID name id instID statusID : String) (isNewResource : Bool)
    (data : AgentStatusResourceModel)
    (hid : AgentStatusParseID id = Except.ok (instID, statusID)) :
    ((resourceAgentStatusCreate instanceID name (Except.ok none)).errors ≠ []
      ∧ (resourceAgentStatusCreate instanceID name (Except.ok none)).assignedID = none)
    ∧ ((resourceAgentStatusRead id isNewResource (DescribeResult.ok none)).errors ≠ []
      ∧ (resourceAgentStatusRead id isNewResource (DescribeResult.ok none)).removed = false)
    ∧ ((resourceAgentStatusRead id isNewResource (DescribeResult.ok (some none))).errors ≠ []
      ∧ (resourceAgentStatusRead id isNewResource (DescribeResult.ok (some none))).removed = false)
    ∧ (frameworkRead data (DescribeResult.ok none) =
        { removed := true, errors := [], savedState := none })
    ∧ (frameworkRead data (DescribeResult.ok (some none)) =
        { removed := true, errors := [], savedState := none }) := by
  refine ⟨⟨?_, rfl⟩, ⟨?_, ?_⟩, ⟨?_, ?_⟩, rfl, rfl⟩
  · simp [resourceAgentStatusCreate]
  · simp [resourceAgentStatusRead, hid]
  · simp [resourceAgentStatusRead, hid]
  · simp [resourceAgentStatusRead, hid]
  · simp [resourceAgentStatusRead, hid]

/-- C6 amended witness: concrete nil payloads evaluated through the legacy
Create and the framework Read. -/
theorem empty_response_handling_amended_witness :
    (resourceAgentStatusCreate "inst-1" "Busy" (Except.ok none)).errors ≠ []
    ∧ frameworkRead sampleData (DescribeResult.ok none) =
        { removed := true, errors := [], savedState := none } :=
  ⟨(empty_response_handling_amended "inst-1" "Busy" "i:a" "i" "a" false sampleData
      (by rfl)).1.1,
   (empty_response_handling_amended "inst-1" "Busy" "i:a" "i" "a" false sampleData
      (by rfl)).2.2.2.1⟩

/-- C7: in the adopt-then-update path of the framework Create, a failing
update surfaces an update error while the adopted identifier and ARN are
still written to the saved record and identity, and no create call is
made. -/
theorem adopt_then_update_failure_keeps_adoption
    (data : AgentStatusResourceModel) (flag : TFBool) (remote : CreateRemote)
    (id arn e : String)
    (hscan : scanForName data.name remote.listCalls = ScanResult.found id arn)
    (hflag : shouldScanOnCreate flag = true)
    (hupd : remote.updateResult = Except.error e) :
    (frameworkCreate data flag remote).errors = [Diag.updateError e]
    ∧ (frameworkCreate data flag remote).savedState =
        some { data with agentStatusID := id, arn := arn }
    ∧ (frameworkCreate data flag remote).savedIdentity =
        some { arn := arn, agentStatusID := id }
    ∧ (frameworkCreate data flag remote).createCalled = false := by
  simp [frameworkCreate, hflag, hscan, hupd]

/-- C7 witness: the sample adopt-then-update run with a failing update
keeps the adopted identifier. -/
theorem adopt_then_update_failure_keeps_adoption_witness :
    (frameworkCreate sampleData TFBool.null sampleRemoteFoundUpdErr).errors =
        [Diag.updateError "upd boom"]
    ∧ (frameworkCreate sampleData TFBool.null sampleRemoteFoundUpdErr).savedState =
        some { sampleData with agentStatusID := "as-1", arn := "arn-1" }
    ∧ (frameworkCreate sampleData TFBool.null sampleRemoteFoundUpdErr).savedIdentity =
        some { arn := "arn-1", agentStatusID := "as-1" }
    ∧ (frameworkCreate sampleData TFBool.null sampleRemoteFoundUpdErr).createCalled = false :=
  adopt_then_update_failure_keeps_adoption sampleData TFBool.null sampleRemoteFoundUpdErr
    "as-1" "arn-1" "upd boom" (by decide) (by decide) (by rfl)

theorem legacyUpdate_updateCalled (id : String) (old new : LegacyDesiredSpec)
    (updateResult : Except String Unit) (instID statusID : String)
    (hid : AgentStatusParseID id = Except.ok (instID, statusID)) :
    (resourceAgentStatusUpdate id old new updateResult).updateCalled =
      (old.name != new.name || old.description != new.description
        || old.state != new.state) := by
  simp only [resourceAgentStatusUpdate, hid]
  cases hch : (old.name != new.name || old.description != new.description
      || old.state != new.state) with
  | false => rw [if_neg (by simp [hch])]
  | true =>
    rw [if_pos (by simp [hch])]
    cases updateResult <;> rfl

/-- C8: the legacy Update issues the remote call exactly when name,
description or state differ between the prior record and the plan, while
the framework Update always issues the remote call with the plan payload. -/
theorem update_call_condition_legacy_vs_framework
    (id instID statusID : String) (old new : LegacyDesiredSpec)
    (updateResult : Except String Unit) (data : AgentStatusResourceModel)
    (hid : AgentStatusParseID id = Except.ok (instID, statusID)) :
    ((resourceAgentStatusUpdate id old new updateResult).updateCalled = true ↔
       (old.name ≠ new.name ∨ old.description ≠ new.description
         ∨ old.state ≠ new.state))
    ∧ (frameworkUpdate data updateResult).updateCalled = true
    ∧ (frameworkUpdate data updateResult).updateInputSent = some (buildUpdateInput data) := by
  refine ⟨?_, ?_, ?_⟩
  · rw [legacyUpdate_updateCalled id old new updateResult instID statusID hid]
    simp [Bool.or_eq_true, bne_iff_ne, or_assoc]
  · cases updateResult <;> rfl
  · cases updateResult <;> rfl

/-- C8 witness: a description-only diff triggers the legacy remote call
and the framework update always fires. -/
theorem update_call_condition_legacy_vs_framework_witness :
    ((resourceAgentStatusUpdate "i:a" sampleSpecA sampleSpecB (Except.ok ())).updateCalled = true ↔
       (sampleSpecA.name ≠ sampleSpecB.name ∨ sampleSpecA.description ≠ sampleSpecB.description
         ∨ sampleSpecA.state ≠ sampleSpecB.state))
    ∧ (frameworkUpdate sampleData (Except.ok ())).updateCalled = true
    ∧ (frameworkUpdate sampleData (Except.ok ())).updateInputSent =
        some (buildUpdateInput sampleData) :=
  update_call_condition_legacy_vs_framework "i:a" "i" "a" sampleSpecA sampleSpecB
    (Except.ok ()) sampleData (by rfl)

/-- C9: both Delete handlers succeed as a no-op: no remote call of any
kind is issued and no diagnostics are produced, so the record is simply
dropped from management. -/
theorem delete_is_noop (data : AgentStatusResourceModel) :
    resourceAgentStatusDelete.remoteCalled = false
    ∧ resourceAgentStatusDelete.errors = []
    ∧ (frameworkDelete data).remoteCalled = false
    ∧ (frameworkDelete data).errors = [] :=
  ⟨rfl, rfl, rfl, rfl⟩

/-- C10: in the framework Create, a failing list call during the adoption
scan records an error diagnostic, exits the scan, and CreateAgentStatus is
still issued with the desired spec. -/
theorem list_failure_still_creates
    (data : AgentStatusResourceModel) (flag : TFBool) (remote : CreateRemote)
    (msg : String)
    (hscan : scanForName data.name remote.listCalls = ScanResult.listFailed msg)
    (hflag : shouldScanOnCreate flag = true) :
    Diag.listError msg ∈ (frameworkCreate data flag remote).errors
    ∧ (frameworkCreate data flag remote).createCalled = true
    ∧ (frameworkCreate data flag remote).createInputSent = some (buildCreateInput data) := by
  cases hc : remote.createResult <;>
    simp [frameworkCreate, hflag, hscan, createViaAPI, hc]

/-- C10 witness: the sample run whose only list call fails still creates
the resource and keeps the list diagnostic. -/
theorem list_failure_still_creates_witness :
    Diag.listError "boom" ∈ (frameworkCreate sampleData TFBool.null sampleRemoteListErr).errors
    ∧ (frameworkCreate sampleData TFBool.null sampleRemoteListErr).createCalled = true
    ∧ (frameworkCreate sampleData TFBool.null sampleRemoteListErr).createInputSent =
        some (buildCreateInput sampleData) :=
  list_failure_still_creates sampleData TFBool.null sampleRemoteListErr "boom"
    (by decide) (by decide)

end AgentStatusExt
